import Mathlib

/-!
Verification development for the `ge_tutorials` Airflow pipeline
(`airflow/ge_tutorials_dag.py`).

The file shallowly embeds the pipeline's data model and its five steps:

* a relational database state (`DB`): named tables plus a table-dependency
  relation (views and other objects that depend on a table, which matter for
  `DROP TABLE ... CASCADE` versus a plain `DROP TABLE`);
* the Loader (`load_files_into_db`): drops the two source tables with
  CASCADE, then recreates them from the two CSV files, lowercasing the
  column names of `npi_small` only;
* the Publisher (`publish_to_prod`): drop-if-exists (no CASCADE) of the
  production table, then `ALTER TABLE ... RENAME TO ...`;
* the Output-validation gate (`validate_analytical_output`): builds a run
  identifier from the scheduler's run id and start timestamp, calls the
  (external, hence parameterised) validation engine and raises iff the
  returned success flag is false;
* the DAG dependency chain (line
  `task_load_files_into_db >> task_validate_source_data_load >> task_dbt >>
  task_validate_analytical_output >> task_publish`), executed with the
  scheduler's all-predecessors-succeeded rule by `runChain`.

External collaborators (pandas CSV parsing, the dbt transformation, the
great_expectations engine) are modelled as opaque inputs: the loader takes
already-parsed CSV contents, the dbt step is an arbitrary database
transformation that may fail, and the validation engine is an arbitrary
function returning a structured result with a boolean success flag.
-/

namespace GeTutorials

/-- A database cell value. pandas `read_csv` infers integer or string cells,
so a cell is either an integer or a string. -/
inductive Value where
  | intV : Int → Value
  | strV : String → Value
  deriving DecidableEq, Repr

/-- A database table: column names and rows (loaded with `index=False`,
so there is no extra index column: the columns are exactly `cols`). -/
structure Table where
  cols : List String
  rows : List (List Value)
  deriving DecidableEq, Repr

/-- A database state: named tables, plus the dependency relation used by
`DROP ... CASCADE`: an entry `(obj, t)` records that object `obj`
(e.g. a view) depends on table `t`. -/
structure DB where
  tables : List (String × Table)
  deps : List (String × String)
  deriving DecidableEq, Repr

/-- Look up a table by name. -/
def DB.lookupTable (db : DB) (n : String) : Option Table :=
  (db.tables.find? (fun p => p.1 == n)).map Prod.snd

/-- Does a table of this name exist? -/
def DB.hasTable (db : DB) (n : String) : Bool :=
  (db.lookupTable n).isSome

/-- Does any object depend on the table of this name? -/
def DB.hasDependents (db : DB) (n : String) : Bool :=
  db.deps.any (fun p => p.2 == n)

/-- Number of tables bearing this exact name (a sane database has at most
one; the publisher invariant asserts exactly one afterwards). -/
def DB.countName (db : DB) (n : String) : Nat :=
  (db.tables.filter (fun p => p.1 == n)).length

/-- `drop table if exists n cascade`: removes the table and every
dependency edge onto it (the dependent objects are destroyed). Never
fails. -/
def DB.dropTableIfExistsCascade (db : DB) (n : String) : DB :=
  { tables := db.tables.filter (fun p => p.1 != n),
    deps := db.deps.filter (fun p => p.2 != n) }

/-- Remove a table entry by name, leaving the dependency relation as is. -/
def DB.removeTableOnly (db : DB) (n : String) : DB :=
  { db with tables := db.tables.filter (fun p => p.1 != n) }

/-- `drop table if exists n` WITHOUT cascade: a no-op when the table is
absent, an error when the table exists and other objects depend on it
(PostgreSQL refuses the drop), otherwise removes the table. -/
def DB.dropTableIfExists (db : DB) (n : String) : Except String DB :=
  if db.hasTable n && db.hasDependents n then
    Except.error ("cannot drop table " ++ n ++ " because other objects depend on it")
  else
    Except.ok (db.removeTableOnly n)

/-- Create or replace a table under name `n` (pandas `to_sql` with
`if_exists='replace'`). -/
def DB.putTable (db : DB) (n : String) (t : Table) : DB :=
  { tables := (n, t) :: db.tables.filter (fun p => p.1 != n), deps := db.deps }

/-- `alter table src rename to dst`: fails when `src` does not exist or a
table named `dst` already exists; otherwise moves the table. -/
def DB.alterTableRename (db : DB) (src dst : String) : Except String DB :=
  match db.lookupTable src with
  | none => Except.error ("relation " ++ src ++ " does not exist")
  | some t =>
    if db.hasTable dst then
      Except.error ("relation " ++ dst ++ " already exists")
    else
      Except.ok ((db.removeTableOnly src).putTable dst t)

/-- A parsed CSV file, as pandas `read_csv` returns it: the header names
and the data rows. -/
structure CSVFile where
  header : List String
  rows : List (List Value)
  deriving DecidableEq, Repr

/-- The two fixed files the Loader reads, each `none` when missing
(`read_csv` then raises `FileNotFoundError`). -/
structure FileSys where
  npi_small_csv : Option CSVFile
  state_abbreviations_csv : Option CSVFile
  deriving DecidableEq, Repr

/-- Python's `str.lower()` on a column name: lowercase every character. -/
def str_lower (s : String) : String :=
  ⟨s.data.map Char.toLower⟩

/-- The Loader (`load_files_into_db`): drop both destination tables with
CASCADE, then read `data/npi_small.csv`, lowercase its column names and
load it, then read `data/state_abbreviations.csv` and load it unchanged.
Returns the mutated database together with the step result: the
confirmation marker string on success, the raised error otherwise.
Note that both drops precede both reads, exactly as in the source. -/
def load_files_into_db (fs : FileSys) (db0 : DB) : DB × Except String String :=
  let db1 := db0.dropTableIfExistsCascade "npi_small"
  let db2 := db1.dropTableIfExistsCascade "state_abbreviations"
  match fs.npi_small_csv with
  | none => (db2, Except.error "FileNotFoundError: data/npi_small.csv")
  | some df_npi_small =>
    let lowered : CSVFile :=
      { header := df_npi_small.header.map str_lower, rows := df_npi_small.rows }
    let db3 := db2.putTable "npi_small" { cols := lowered.header, rows := lowered.rows }
    match fs.state_abbreviations_csv with
    | none => (db3, Except.error "FileNotFoundError: data/state_abbreviations.csv")
    | some df_state_abbreviations =>
      let db4 := db3.putTable "state_abbreviations"
        { cols := df_state_abbreviations.header, rows := df_state_abbreviations.rows }
      (db4, Except.ok "Loaded files into the database")

/-- The Publisher (`publish_to_prod`):
`drop table if exists prod_count_providers_by_state` (no CASCADE), then
`alter table count_providers_by_state rename to prod_count_providers_by_state`.
Returns the mutated database and the step result; a failing first
statement leaves the database untouched and skips the rename. -/
def publish_to_prod (db0 : DB) : DB × Except String Unit :=
  match db0.dropTableIfExists "prod_count_providers_by_state" with
  | Except.error e => (db0, Except.error e)
  | Except.ok db1 =>
    match db1.alterTableRename "count_providers_by_state" "prod_count_providers_by_state" with
    | Except.error e => (db1, Except.error e)
    | Except.ok db2 => (db2, Except.ok ())

/-- The structured report the validation engine returns: the boolean
success flag (the only field the pipeline inspects) plus opaque detail. -/
structure ValidationResult where
  success : Bool
  details : List String
  deriving DecidableEq, Repr

/-- The batch descriptor handed to the engine (`batch_kwargs`). -/
structure BatchKwargs where
  table : String
  datasource : String
  deriving DecidableEq, Repr

/-- A resolved batch: descriptor plus bound expectation-suite name
(`context.get_batch(batch_kwargs, expectation_suite_name)`). -/
structure Batch where
  kwargs : BatchKwargs
  suite : String
  deriving DecidableEq, Repr

/-- The external great_expectations data context, reduced to the one entry
point this pipeline calls: `run_validation_operator` takes the operator
name, the assets to validate and the run id, and returns the report. -/
structure GEContext where
  run_validation_operator : String → List Batch → String → ValidationResult

/-- `context.get_batch`: binds the batch descriptor to a suite name. -/
def GEContext.get_batch (_ctx : GEContext) (kw : BatchKwargs) (suite : String) : Batch :=
  { kwargs := kw, suite := suite }

/-- The scheduler-provided run metadata (`kwargs['dag_run']`): the run id
and the stringified start timestamp. -/
structure DagRun where
  run_id : String
  start_date : String
  deriving DecidableEq, Repr

/-- The run identifier as `validate_analytical_output` builds it: first a
`utcnow`-based assignment, then an unconditional reassignment to
`"airflow:" + run_id + ":" + str(start_date)`; the second assignment is
the value actually used. -/
def run_id_passed (utcnow_str : String) (dag_run : DagRun) : String :=
  let run_id := utcnow_str
  let run_id := "airflow:" ++ dag_run.run_id ++ ":" ++ dag_run.start_date
  run_id

/-- The Output-validation gate (`validate_analytical_output`): bind the
table `count_providers_by_state` to the suite
`count_providers_by_state.critical`, run the validation operator with the
constructed run id, and raise an `AirflowException` naming the suite iff
the returned success flag is false. -/
def validate_analytical_output (ctx : GEContext) (utcnow_str : String) (dag_run : DagRun) :
    Except String Unit :=
  let datasource_name := "datawarehouse"
  let batch_kwargs : BatchKwargs :=
    { table := "count_providers_by_state", datasource := datasource_name }
  let expectation_suite_name := "count_providers_by_state.critical"
  let batch := ctx.get_batch batch_kwargs expectation_suite_name
  let run_id := run_id_passed utcnow_str dag_run
  let results := ctx.run_validation_operator "action_list_operator" [batch] run_id
  if !results.success then
    Except.error ("The analytical output does not meet the expectations in the suite: " ++
      expectation_suite_name)
  else
    Except.ok ()

/-- The five Airflow task ids of the DAG. -/
inductive TaskId where
  | task_load_files_into_db
  | task_validate_source_data_load
  | task_dbt
  | task_validate_analytical_output
  | task_publish
  deriving DecidableEq, Repr

/-- The DAG dependency line
`task_load_files_into_db >> task_validate_source_data_load >> task_dbt >>
task_validate_analytical_output >> task_publish`, as the induced linear
execution order. -/
def dag_dependency_chain : List TaskId :=
  [TaskId.task_load_files_into_db, TaskId.task_validate_source_data_load,
   TaskId.task_dbt, TaskId.task_validate_analytical_output, TaskId.task_publish]

/-- The external inputs of one pipeline run: the file system, the
validation engine, the dbt invocation (an arbitrary database
transformation returning a success flag), and the scheduler metadata. -/
structure PipelineEnv where
  fs : FileSys
  ctx : GEContext
  dbt_run : DB → DB × Bool
  utcnow_str : String
  dag_run : DagRun

/-- The state a run threads through its steps: the database, and the
scheduler's record of step outputs (XCom) as task/value pairs. -/
structure PipeState where
  db : DB
  xcom : List (TaskId × String)
  deriving Repr

/-- Success flag of a step result. -/
def exceptOk {ε α : Type} : Except ε α → Bool
  | Except.ok _ => true
  | Except.error _ => false

/-- Execute one task. `task_validate_source_data_load` is the placeholder
`BashOperator` with an empty command: a no-op that succeeds. Only the
Loader's return value is recorded as step output (the other Python
callables return `None`). -/
def runTask (env : PipelineEnv) (s : PipeState) : TaskId → PipeState × Bool
  | TaskId.task_load_files_into_db =>
    match load_files_into_db env.fs s.db with
    | (db', Except.ok msg) =>
      ({ db := db', xcom := (TaskId.task_load_files_into_db, msg) :: s.xcom }, true)
    | (db', Except.error _) => ({ s with db := db' }, false)
  | TaskId.task_validate_source_data_load => (s, true)
  | TaskId.task_dbt =>
    match env.dbt_run s.db with
    | (db', ok) => ({ s with db := db' }, ok)
  | TaskId.task_validate_analytical_output =>
    (s, exceptOk (validate_analytical_output env.ctx env.utcnow_str env.dag_run))
  | TaskId.task_publish =>
    match publish_to_prod s.db with
    | (db', r) => ({ s with db := db' }, exceptOk r)

/-- Execute a linear chain of tasks under the scheduler's all-success
trigger rule: a task runs only after its predecessor succeeded; the first
failing task ends the run. Returns the final state and the trace of
executed tasks with their outcomes. -/
def runChain (env : PipelineEnv) : PipeState → List TaskId → PipeState × List (TaskId × Bool)
  | s, [] => (s, [])
  | s, t :: ts =>
    match runTask env s t with
    | (s', true) =>
      match runChain env s' ts with
      | (s'', tr) => (s'', (t, true) :: tr)
    | (s', false) => (s', [(t, false)])

/-- One full pipeline run over the DAG's dependency chain. -/
def run_pipeline (env : PipelineEnv) (s : PipeState) : PipeState × List (TaskId × Bool) :=
  runChain env s dag_dependency_chain

/-- `sub` occurs as a contiguous substring of `s`. -/
def strContains (s sub : String) : Prop :=
  ∃ pre post, s = pre ++ sub ++ post

/-! ### Association-list helper lemmas -/

lemma find?_filter_bne_self (n : String) (l : List (String × Table)) :
    (l.filter (fun p => p.1 != n)).find? (fun p => p.1 == n) = none := by
  apply List.find?_eq_none.2
  intro x hx
  have hq := (List.mem_filter.1 hx).2
  simpa using hq

lemma find?_filter_filter_bne (n : String) (q : String × Table → Bool)
    (l : List (String × Table)) :
    ((l.filter (fun p => p.1 != n)).filter q).find? (fun p => p.1 == n) = none := by
  apply List.find?_eq_none.2
  intro x hx
  have hq := (List.mem_filter.1 (List.mem_filter.1 hx).1).2
  simpa using hq

lemma find?_filter_bne_of_ne (n m : String) (hnm : n ≠ m) (l : List (String × Table)) :
    (l.filter (fun p => p.1 != m)).find? (fun p => p.1 == n) = l.find? (fun p => p.1 == n) := by
  induction l with
  | nil => rfl
  | cons a l ih =>
    have hmn : (m == n) = false := beq_eq_false_iff_ne.2 (Ne.symm hnm)
    by_cases hm : a.1 = m
    · simp [List.filter_cons, List.find?_cons, hm, hmn, ih]
    · by_cases hn : a.1 = n
      · simp [List.filter_cons, List.find?_cons, hm, hn, hnm]
      · simp [List.filter_cons, List.find?_cons, hm, hn, ih]

lemma filter_beq_of_filter_bne (n : String) (l : List (String × Table)) :
    (l.filter (fun p => p.1 != n)).filter (fun p => p.1 == n) = [] := by
  rw [List.filter_eq_nil_iff]
  intro x hx
  have hq := (List.mem_filter.1 hx).2
  simpa using hq

lemma any_snd_filter_bne (n : String) (l : List (String × String)) :
    (l.filter (fun p => p.2 != n)).any (fun p => p.2 == n) = false := by
  apply List.any_eq_false.2
  intro x hx
  have hq := (List.mem_filter.1 hx).2
  simpa using hq

lemma any_snd_filter_filter_bne (n : String) (q : String × String → Bool)
    (l : List (String × String)) :
    ((l.filter (fun p => p.2 != n)).filter q).any (fun p => p.2 == n) = false := by
  apply List.any_eq_false.2
  intro x hx
  have hq := (List.mem_filter.1 (List.mem_filter.1 hx).1).2
  simpa using hq

/-! ### Loader characterization -/

lemma load_deps_eq (fs : FileSys) (db0 : DB) :
    (load_files_into_db fs db0).1.deps =
      (db0.deps.filter (fun p => p.2 != "npi_small")).filter
        (fun p => p.2 != "state_abbreviations") := by
  rcases h1 : fs.npi_small_csv with _ | c1 <;>
    rcases h2 : fs.state_abbreviations_csv with _ | c2 <;>
    simp [load_files_into_db, h1, h2, DB.dropTableIfExistsCascade, DB.putTable]

lemma load_npi_lookup (fs : FileSys) (db0 : DB) :
    (load_files_into_db fs db0).1.lookupTable "npi_small" =
      fs.npi_small_csv.map
        (fun c => { cols := c.header.map str_lower, rows := c.rows }) := by
  rcases h1 : fs.npi_small_csv with _ | c1 <;>
    rcases h2 : fs.state_abbreviations_csv with _ | c2 <;>
    simp [load_files_into_db, h1, h2, DB.dropTableIfExistsCascade, DB.putTable,
      DB.lookupTable, find?_filter_filter_bne, List.filter_filter]

lemma load_state_lookup (fs : FileSys) (db0 : DB) :
    (load_files_into_db fs db0).1.lookupTable "state_abbreviations" =
      match fs.npi_small_csv, fs.state_abbreviations_csv with
      | some _, some c => some { cols := c.header, rows := c.rows }
      | _, _ => none := by
  rcases h1 : fs.npi_small_csv with _ | c1 <;>
    rcases h2 : fs.state_abbreviations_csv with _ | c2 <;>
    simp [load_files_into_db, h1, h2, DB.dropTableIfExistsCascade, DB.putTable,
      DB.lookupTable, find?_filter_bne_self, find?_filter_filter_bne]
  all_goals (intros; assumption)

/-! ### Chain executor helper lemmas -/

lemma runTask_db_indep (env : PipelineEnv) (s1 s2 : PipeState) (h : s1.db = s2.db) :
    ∀ t : TaskId,
      (runTask env s1 t).1.db = (runTask env s2 t).1.db ∧
        (runTask env s1 t).2 = (runTask env s2 t).2
  | TaskId.task_load_files_into_db => by
    rcases hl : load_files_into_db env.fs s2.db with ⟨db', r⟩
    cases r <;> simp [runTask, h, hl]
  | TaskId.task_validate_source_data_load => by simp [runTask, h]
  | TaskId.task_dbt => by
    rcases hd : env.dbt_run s2.db with ⟨db', b⟩
    simp [runTask, h, hd]
  | TaskId.task_validate_analytical_output => by simp [runTask, h]
  | TaskId.task_publish => by
    rcases hp : publish_to_prod s2.db with ⟨db', r⟩
    simp [runTask, h, hp]

lemma runChain_db_indep (env : PipelineEnv) :
    ∀ (ts : List TaskId) (s1 s2 : PipeState), s1.db = s2.db →
      (runChain env s1 ts).1.db = (runChain env s2 ts).1.db ∧
        (runChain env s1 ts).2 = (runChain env s2 ts).2
  | [], s1, s2, h => by simpa [runChain] using h
  | t :: ts, s1, s2, h => by
    rcases ht1 : runTask env s1 t with ⟨s1', b1⟩
    rcases ht2 : runTask env s2 t with ⟨s2', b2⟩
    have hb : b1 = b2 := by
      have hx := (runTask_db_indep env s1 s2 h t).2
      rw [ht1, ht2] at hx; exact hx
    have hdb : s1'.db = s2'.db := by
      have hx := (runTask_db_indep env s1 s2 h t).1
      rw [ht1, ht2] at hx; exact hx
    subst hb
    cases b1
    · simp [runChain, ht1, ht2, hdb]
    · rcases hc1 : runChain env s1' ts with ⟨s1'', tr1⟩
      rcases hc2 : runChain env s2' ts with ⟨s2'', tr2⟩
      have hx := runChain_db_indep env ts s1' s2' hdb
      rw [hc1, hc2] at hx
      simp at hx
      simp [runChain, ht1, ht2, hc1, hc2, hx.1, hx.2]

lemma runChain_trace_ne_nil (env : PipelineEnv) (s : PipeState) (t : TaskId) (ts : List TaskId) :
    (runChain env s (t :: ts)).2 ≠ [] := by
  rcases ht : runTask env s t with ⟨s', b⟩
  cases b
  · simp [runChain, ht]
  · rcases hc : runChain env s' ts with ⟨s'', tr⟩
    simp [runChain, ht, hc]

lemma runChain_map_take (env : PipelineEnv) :
    ∀ (ts : List TaskId) (s : PipeState),
      (runChain env s ts).2.map Prod.fst = ts.take (runChain env s ts).2.length
  | [], s => by simp [runChain]
  | t :: ts, s => by
    rcases ht : runTask env s t with ⟨s', b⟩
    cases b
    · simp [runChain, ht]
    · rcases hc : runChain env s' ts with ⟨s'', tr⟩
      have ih := runChain_map_take env ts s'
      rw [hc] at ih
      simp [runChain, ht, hc, ih]

lemma runChain_pred_success (env : PipelineEnv) :
    ∀ (ts : List TaskId) (s : PipeState) (i : Nat) (p q : TaskId × Bool),
      (runChain env s ts).2[i]? = some p → (runChain env s ts).2[i + 1]? = some q → p.2 = true
  | [], s, i, p, q => by simp [runChain]
  | t :: ts, s, i, p, q => by
    rcases ht : runTask env s t with ⟨s', b⟩
    cases b
    · intro _ hq
      simp [runChain, ht] at hq
    · rcases hc : runChain env s' ts with ⟨s'', tr⟩
      intro hp hq
      cases i with
      | zero =>
        simp [runChain, ht, hc] at hp
        subst hp
        rfl
      | succ i =>
        have ih := runChain_pred_success env ts s' i p q
        rw [hc] at ih
        simp [runChain, ht, hc] at hp hq
        exact ih hp hq

lemma runChain_stops_on_failure (env : PipelineEnv) :
    ∀ (ts : List TaskId) (s : PipeState),
      (runChain env s ts).2.length < ts.length →
      ∃ p, (runChain env s ts).2.getLast? = some p ∧ p.2 = false
  | [], s => by simp [runChain]
  | t :: ts, s => by
    rcases ht : runTask env s t with ⟨s', b⟩
    cases b
    · intro _
      refine ⟨(t, false), ?_, rfl⟩
      simp [runChain, ht]
    · rcases hc : runChain env s' ts with ⟨s'', tr⟩
      intro hlen
      have hlen' : tr.length < ts.length := by
        simpa [runChain, ht, hc] using hlen
      have ih := runChain_stops_on_failure env ts s'
      rw [hc] at ih
      rcases ih hlen' with ⟨p, hp, hfalse⟩
      refine ⟨p, ?_, hfalse⟩
      have htr : tr ≠ [] := by
        rcases ts with _ | ⟨u, ts2⟩
        · simp at hlen'
        · have hnn := runChain_trace_ne_nil env s' u ts2
          rw [hc] at hnn; exact hnn
      rcases htr2 : tr with _ | ⟨p2, tr2⟩
      · exact absurd htr2 htr
      · rw [htr2] at hp
        rw [show (runChain env s (t :: ts)).2 = (t, true) :: p2 :: tr2 from by
          simp [runChain, ht, hc, htr2], List.getLast?_cons_cons]
        exact hp

/-! ### Claim theorems -/

/-- Claim C2: for every prior database state, after the Publisher
(`publish_to_prod`) completes successfully, exactly one table named
`prod_count_providers_by_state` exists (any pre-existing table of that
name having been dropped first), its contents are exactly the rows
`count_providers_by_state` had, and no table named
`count_providers_by_state` remains: it was renamed, not copied. -/
theorem publish_to_prod_replaces_prod_table (db0 db' : DB)
    (h : publish_to_prod db0 = (db', Except.ok ())) :
    db'.countName "prod_count_providers_by_state" = 1 ∧
    db'.lookupTable "prod_count_providers_by_state"
      = db0.lookupTable "count_providers_by_state" ∧
    db'.lookupTable "count_providers_by_state" = none := by
  by_cases hd : (db0.hasTable "prod_count_providers_by_state"
      && db0.hasDependents "prod_count_providers_by_state") = true
  · simp [publish_to_prod, DB.dropTableIfExists, hd] at h
  · have hstep : publish_to_prod db0 =
        match (db0.removeTableOnly "prod_count_providers_by_state").alterTableRename
            "count_providers_by_state" "prod_count_providers_by_state" with
        | Except.error e =>
          (db0.removeTableOnly "prod_count_providers_by_state", Except.error e)
        | Except.ok db2 => (db2, Except.ok ()) := by
      simp [publish_to_prod, DB.dropTableIfExists, hd]
    rcases hl : (db0.removeTableOnly
        "prod_count_providers_by_state").lookupTable "count_providers_by_state" with _ | t
    · rw [hstep] at h
      simp [DB.alterTableRename, hl] at h
    · have hnew : (db0.removeTableOnly
          "prod_count_providers_by_state").hasTable "prod_count_providers_by_state"
            = false := by
        simp [DB.hasTable, DB.lookupTable, DB.removeTableOnly, find?_filter_bne_self]
      rw [hstep] at h
      simp [DB.alterTableRename, hl, hnew] at h
      have hlook : db0.lookupTable "count_providers_by_state" = some t := by
        rw [← hl]
        exact congrArg (Option.map Prod.snd)
          (find?_filter_bne_of_ne "count_providers_by_state"
            "prod_count_providers_by_state" (by decide) db0.tables).symm
      rw [← h]
      refine ⟨?_, ?_, ?_⟩
      · simp [DB.countName, DB.putTable, DB.removeTableOnly, List.filter_cons,
          filter_beq_of_filter_bne]
        intros; assumption
      · rw [hlook]
        simp [DB.lookupTable, DB.putTable, List.find?_cons]
      · simp [DB.lookupTable, DB.putTable, DB.removeTableOnly, List.find?_cons,
          find?_filter_filter_bne]
        intros; assumption

/-- Claim C3: the Loader (`load_files_into_db`) replaces the tables
`npi_small` and `state_abbreviations` with exactly the CSV rows and no
index column, lowercasing the column names of `npi_small` only while
loading `state_abbreviations` with its header names unchanged. -/
theorem load_files_into_db_replaces_tables (fs : FileSys) (db0 : DB)
    (c_npi c_st : CSVFile)
    (h1 : fs.npi_small_csv = some c_npi) (h2 : fs.state_abbreviations_csv = some c_st) :
    (load_files_into_db fs db0).1.lookupTable "npi_small"
      = some { cols := c_npi.header.map str_lower, rows := c_npi.rows } ∧
    (load_files_into_db fs db0).1.lookupTable "state_abbreviations"
      = some { cols := c_st.header, rows := c_st.rows } := by
  constructor
  · rw [load_npi_lookup, h1]; rfl
  · rw [load_state_lookup, h1, h2]

/-- Claim C4: the run identifier passed to the validation operator equals
the concatenation of the fixed prefix `airflow`, the scheduler's run id
and the scheduler's run start timestamp, each pair separated by `:`. -/
theorem run_id_concatenation (u : String) (dag_run : DagRun) :
    run_id_passed u dag_run
      = "airflow" ++ ":" ++ dag_run.run_id ++ ":" ++ dag_run.start_date := rfl

/-- Claim C6: running the Loader twice in succession with unchanged CSV
files produces destination tables identical to those after a single run
(idempotence via drop-then-recreate). -/
theorem load_files_into_db_idempotent (fs : FileSys) (db0 : DB) :
    (load_files_into_db fs (load_files_into_db fs db0).1).1.lookupTable "npi_small"
      = (load_files_into_db fs db0).1.lookupTable "npi_small" ∧
    (load_files_into_db fs (load_files_into_db fs db0).1).1.lookupTable "state_abbreviations"
      = (load_files_into_db fs db0).1.lookupTable "state_abbreviations" :=
  ⟨by rw [load_npi_lookup, load_npi_lookup],
   by rw [load_state_lookup, load_state_lookup]⟩

/-- Claim C8: the run identifier passed to the validation operator does
not depend on the current wall-clock time: two invocations with the same
scheduler run id and start timestamp build the same run identifier (and
the gate behaves identically), because the initial utcnow-based
assignment is unconditionally overwritten before use. -/
theorem run_id_independent_of_wallclock (u1 u2 : String) (ctx : GEContext)
    (dag_run : DagRun) :
    run_id_passed u1 dag_run = run_id_passed u2 dag_run ∧
    validate_analytical_output ctx u1 dag_run = validate_analytical_output ctx u2 dag_run :=
  ⟨rfl, rfl⟩

/-- Claim C7: on every successful run the Loader returns the confirmation
marker string `Loaded files into the database` as its step output, and no
downstream step consumes this value: the remaining chain's database
evolution and execution trace depend only on the database state, not on
the recorded step outputs. -/
theorem load_files_into_db_returns_marker (fs : FileSys) (db0 : DB)
    (c1 c2 : CSVFile)
    (h1 : fs.npi_small_csv = some c1) (h2 : fs.state_abbreviations_csv = some c2) :
    (load_files_into_db fs db0).2 = Except.ok "Loaded files into the database" ∧
    (∀ (env : PipelineEnv) (ts : List TaskId) (s1 s2 : PipeState), s1.db = s2.db →
      (runChain env s1 ts).1.db = (runChain env s2 ts).1.db ∧
        (runChain env s1 ts).2 = (runChain env s2 ts).2) :=
  ⟨by simp [load_files_into_db, h1, h2],
   fun env ts s1 s2 h => runChain_db_indep env ts s1 s2 h⟩

/-- Claim C9: the Loader drops both destination tables (with CASCADE)
before reading either CSV file; on every failing run the error comes from
a missing CSV file, and by then the prior `npi_small` and
`state_abbreviations` tables and their dependents have already been
dropped and are not restored: the Loader is not atomic on error. -/
theorem load_files_into_db_drops_before_read (fs : FileSys) (db0 : DB)
    (h : exceptOk (load_files_into_db fs db0).2 = false) :
    (fs.npi_small_csv = none ∨ fs.state_abbreviations_csv = none) ∧
    (load_files_into_db fs db0).1.lookupTable "state_abbreviations" = none ∧
    (load_files_into_db fs db0).1.hasDependents "npi_small" = false ∧
    (load_files_into_db fs db0).1.hasDependents "state_abbreviations" = false ∧
    (fs.npi_small_csv = none →
      (load_files_into_db fs db0).1.lookupTable "npi_small" = none) := by
  have hdeps := load_deps_eq fs db0
  have hnpi : (load_files_into_db fs db0).1.hasDependents "npi_small" = false := by
    rw [DB.hasDependents, hdeps]
    exact any_snd_filter_filter_bne "npi_small" _ db0.deps
  have hstate : (load_files_into_db fs db0).1.hasDependents "state_abbreviations" = false := by
    rw [DB.hasDependents, hdeps]
    exact any_snd_filter_bne "state_abbreviations" _
  rcases hc1 : fs.npi_small_csv with _ | c1 <;>
    rcases hc2 : fs.state_abbreviations_csv with _ | c2
  · exact ⟨Or.inl rfl, by rw [load_state_lookup, hc1, hc2], hnpi, hstate,
      fun _ => by rw [load_npi_lookup, hc1]; rfl⟩
  · exact ⟨Or.inl rfl, by rw [load_state_lookup, hc1, hc2], hnpi, hstate,
      fun _ => by rw [load_npi_lookup, hc1]; rfl⟩
  · exact ⟨Or.inr rfl, by rw [load_state_lookup, hc1, hc2], hnpi, hstate,
      fun h0 => by simp [hc1] at h0⟩
  · exfalso
    simp [load_files_into_db, hc1, hc2, exceptOk] at h

/-- Claim C10: the Publisher's drop of the prior production table is
issued without CASCADE; on every database state in which
`prod_count_providers_by_state` exists and has dependent objects, the
drop statement fails, the rename is never attempted, and the prior
production table is left in place. -/
theorem publish_drop_without_cascade_fails (db0 : DB)
    (hex : db0.hasTable "prod_count_providers_by_state" = true)
    (hdep : db0.hasDependents "prod_count_providers_by_state" = true) :
    (publish_to_prod db0).1 = db0 ∧
    exceptOk (publish_to_prod db0).2 = false ∧
    (publish_to_prod db0).1.lookupTable "prod_count_providers_by_state"
      = db0.lookupTable "prod_count_providers_by_state" := by
  simp [publish_to_prod, DB.dropTableIfExists, hex, hdep, exceptOk]

/-- Claim C1: whenever the validation engine reports a result with
`success = false` for the batch bound to suite
`count_providers_by_state.critical`, the Output-validation gate
(`validate_analytical_output`) raises an error whose message contains the
suite name and the Publisher step never executes; whenever it reports
`success = true`, the gate raises no error. -/
theorem output_gate_blocks_publisher (env : PipelineEnv) (s : PipeState) :
    ((env.ctx.run_validation_operator "action_list_operator"
        [{ kwargs := { table := "count_providers_by_state", datasource := "datawarehouse" },
           suite := "count_providers_by_state.critical" }]
        (run_id_passed env.utcnow_str env.dag_run)).success = false →
      (∃ msg, validate_analytical_output env.ctx env.utcnow_str env.dag_run
          = Except.error msg ∧ strContains msg "count_providers_by_state.critical") ∧
      TaskId.task_publish ∉ (run_pipeline env s).2.map Prod.fst) ∧
    ((env.ctx.run_validation_operator "action_list_operator"
        [{ kwargs := { table := "count_providers_by_state", datasource := "datawarehouse" },
           suite := "count_providers_by_state.critical" }]
        (run_id_passed env.utcnow_str env.dag_run)).success = true →
      validate_analytical_output env.ctx env.utcnow_str env.dag_run = Except.ok ()) := by
  constructor
  · intro hfail
    have hval : validate_analytical_output env.ctx env.utcnow_str env.dag_run
        = Except.error
          ("The analytical output does not meet the expectations in the suite: "
            ++ "count_providers_by_state.critical") := by
      simp [validate_analytical_output, GEContext.get_batch, hfail]
    refine ⟨⟨_, hval,
      ⟨"The analytical output does not meet the expectations in the suite: ", "", by rfl⟩⟩, ?_⟩
    have hsv : ∀ x : PipeState,
        runTask env x TaskId.task_validate_source_data_load = (x, true) := fun _ => rfl
    have hv : ∀ x : PipeState,
        runTask env x TaskId.task_validate_analytical_output = (x, false) := by
      intro x; simp [runTask, hval, exceptOk]
    rw [run_pipeline, dag_dependency_chain]
    rcases h1 : runTask env s TaskId.task_load_files_into_db with ⟨sA, b1⟩
    cases b1
    · simp [runChain, h1]
    · rcases hdbt : env.dbt_run sA.db with ⟨dbB, b3⟩
      have hdbtTask : runTask env sA TaskId.task_dbt = ({ sA with db := dbB }, b3) := by
        simp [runTask, hdbt]
      cases b3
      · simp [runChain, h1, hsv, hdbtTask, hv]
      · simp [runChain, h1, hsv, hdbtTask, hv]
  · intro hok
    simp [validate_analytical_output, GEContext.get_batch, hok]

/-- Claim C5: the five steps execute in the strict linear order
Loader → Source-validation gate → Transformer → Output-validation gate →
Publisher: the executed trace is an initial segment of the dependency
chain in that order, every task with a successor in the trace completed
without error (a step runs only if its predecessor succeeded), and a
trace that stops before the end of the chain ends in a failed task, after
which no later step of the chain runs. -/
theorem dag_strict_linear_chain (env : PipelineEnv) (s : PipeState) :
    ((run_pipeline env s).2.map Prod.fst
        = dag_dependency_chain.take (run_pipeline env s).2.length) ∧
    (∀ (i : Nat) (p q : TaskId × Bool), (run_pipeline env s).2[i]? = some p →
        (run_pipeline env s).2[i + 1]? = some q → p.2 = true) ∧
    ((run_pipeline env s).2.length < dag_dependency_chain.length →
        ∃ p, (run_pipeline env s).2.getLast? = some p ∧ p.2 = false) :=
  ⟨runChain_map_take env dag_dependency_chain s,
   fun i p q hp hq => runChain_pred_success env dag_dependency_chain s i p q hp hq,
   fun hlen => runChain_stops_on_failure env dag_dependency_chain s hlen⟩

/-! ### Concrete inputs for witnesses -/

/-- The scenario CSV: header `NPI,Name`, one data row `123,Acme`. -/
def csv0 : CSVFile :=
  { header := ["NPI", "Name"], rows := [[Value.intV 123, Value.strV "Acme"]] }

/-- A concrete `state_abbreviations.csv`. -/
def csv1 : CSVFile :=
  { header := ["state", "abbreviation"],
    rows := [[Value.strV "California", Value.strV "CA"]] }

/-- Both CSV files present. -/
def fs0 : FileSys := { npi_small_csv := some csv0, state_abbreviations_csv := some csv1 }

/-- `data/npi_small.csv` missing. -/
def fsMissingNpi : FileSys :=
  { npi_small_csv := none, state_abbreviations_csv := some csv1 }

/-- A concrete analytical-output table. -/
def table0 : Table :=
  { cols := ["state", "provider_count"], rows := [[Value.strV "CA", Value.intV 4]] }

/-- An empty database. -/
def db0w : DB := { tables := [], deps := [] }

/-- A database holding the validated table and a stale production table. -/
def dbPub : DB :=
  { tables := [("count_providers_by_state", table0),
      ("prod_count_providers_by_state", { cols := ["state"], rows := [] })],
    deps := [] }

/-- A database whose production table has a dependent view. -/
def dbDeps : DB :=
  { tables := [("prod_count_providers_by_state", table0),
      ("count_providers_by_state", table0)],
    deps := [("prod_report_view", "prod_count_providers_by_state")] }

/-- A database holding prior source tables and a dependent view. -/
def dbLoad : DB :=
  { tables := [("npi_small", table0), ("state_abbreviations", table0)],
    deps := [("npi_view", "npi_small")] }

/-- A validation engine that always reports success. -/
def ctxTrue : GEContext :=
  { run_validation_operator := fun _ _ _ => { success := true, details := [] } }

/-- A validation engine that always reports failure. -/
def ctxFalse : GEContext :=
  { run_validation_operator := fun _ _ _ => { success := false, details := [] } }

/-- Concrete scheduler metadata. -/
def dagRun0 : DagRun :=
  { run_id := "manual__2020-01-01T00:00:00", start_date := "2020-01-01 00:00:00+00:00" }

/-- Initial pipeline state over the empty database. -/
def state0 : PipeState := { db := db0w, xcom := [] }

/-- Same database, different recorded step outputs. -/
def state1 : PipeState :=
  { db := db0w, xcom := [(TaskId.task_load_files_into_db, "other marker")] }

/-- Environment whose validation engine reports failure. -/
def envValFalse : PipelineEnv :=
  { fs := fs0, ctx := ctxFalse, dbt_run := fun db => (db, true),
    utcnow_str := "20200101T000000.000000Z", dag_run := dagRun0 }

/-- Environment whose validation engine reports success. -/
def envValTrue : PipelineEnv :=
  { fs := fs0, ctx := ctxTrue, dbt_run := fun db => (db, true),
    utcnow_str := "20200101T000000.000000Z", dag_run := dagRun0 }

/-- Environment whose dbt invocation fails. -/
def envDbtFail : PipelineEnv :=
  { fs := fs0, ctx := ctxTrue, dbt_run := fun db => (db, false),
    utcnow_str := "20200101T000000.000000Z", dag_run := dagRun0 }

/-! ### Witnesses -/

/-- Witness for C1: with a concrete failing engine the gate raises an
error containing the suite name and the Publisher never executes; with a
concrete succeeding engine the gate raises nothing. -/
theorem output_gate_blocks_publisher_witness :
    ((∃ msg, validate_analytical_output envValFalse.ctx envValFalse.utcnow_str
          envValFalse.dag_run = Except.error msg ∧
        strContains msg "count_providers_by_state.critical") ∧
      TaskId.task_publish ∉ (run_pipeline envValFalse state0).2.map Prod.fst) ∧
    validate_analytical_output envValTrue.ctx envValTrue.utcnow_str envValTrue.dag_run
      = Except.ok () :=
  ⟨(output_gate_blocks_publisher envValFalse state0).1 rfl,
   (output_gate_blocks_publisher envValTrue state0).2 rfl⟩

/-- Witness for C2: publishing over a database that still holds a stale
production table yields exactly one production table, with the validated
rows, and removes the old name. -/
theorem publish_to_prod_replaces_prod_table_witness :
    (publish_to_prod dbPub).1.countName "prod_count_providers_by_state" = 1 ∧
    (publish_to_prod dbPub).1.lookupTable "prod_count_providers_by_state"
      = dbPub.lookupTable "count_providers_by_state" ∧
    (publish_to_prod dbPub).1.lookupTable "count_providers_by_state" = none :=
  publish_to_prod_replaces_prod_table dbPub (publish_to_prod dbPub).1 rfl

/-- Witness for C3, the spec's scenario: header `NPI,Name` with row
`123,Acme` yields table `npi_small` with columns `npi,name` and the
single row `(123, 'Acme')`; `state_abbreviations` keeps its header. -/
theorem load_files_into_db_replaces_tables_witness :
    (load_files_into_db fs0 db0w).1.lookupTable "npi_small"
        = some { cols := ["npi", "name"], rows := [[Value.intV 123, Value.strV "Acme"]] } ∧
    (load_files_into_db fs0 db0w).1.lookupTable "state_abbreviations"
        = some { cols := ["state", "abbreviation"],
                 rows := [[Value.strV "California", Value.strV "CA"]] } := by
  have h := load_files_into_db_replaces_tables fs0 db0w csv0 csv1 rfl rfl
  refine ⟨?_, ?_⟩
  · rw [h.1]; decide
  · rw [h.2]; decide

/-- Witness for C5: with a concrete environment whose dbt step fails, the
trace is an initial segment of the chain, the first task's success flag
is recovered from its successor's presence, and the early-stopped trace
ends in a failed task. -/
theorem dag_strict_linear_chain_witness :
    ((run_pipeline envDbtFail state0).2.map Prod.fst
        = dag_dependency_chain.take (run_pipeline envDbtFail state0).2.length) ∧
    ((TaskId.task_load_files_into_db, true) : TaskId × Bool).2 = true ∧
    (∃ p, (run_pipeline envDbtFail state0).2.getLast? = some p ∧ p.2 = false) :=
  ⟨(dag_strict_linear_chain envDbtFail state0).1,
   (dag_strict_linear_chain envDbtFail state0).2.1 0
      (TaskId.task_load_files_into_db, true) (TaskId.task_validate_source_data_load, true)
      (by decide) (by decide),
   (dag_strict_linear_chain envDbtFail state0).2.2 (by decide)⟩

/-- Witness for C7: the concrete Loader run returns the marker string,
and two states differing only in recorded step outputs evolve to the same
database along the same trace. -/
theorem load_files_into_db_returns_marker_witness :
    (load_files_into_db fs0 db0w).2 = Except.ok "Loaded files into the database" ∧
    ((runChain envDbtFail state1 dag_dependency_chain).1.db
        = (runChain envDbtFail state0 dag_dependency_chain).1.db ∧
      (runChain envDbtFail state1 dag_dependency_chain).2
        = (runChain envDbtFail state0 dag_dependency_chain).2) :=
  ⟨(load_files_into_db_returns_marker fs0 db0w csv0 csv1 rfl rfl).1,
   (load_files_into_db_returns_marker fs0 db0w csv0 csv1 rfl rfl).2 envDbtFail
      dag_dependency_chain state1 state0 rfl⟩

/-- Witness for C9: with `npi_small.csv` missing, the failing Loader run
has already dropped both prior tables and the dependent view. -/
theorem load_files_into_db_drops_before_read_witness :
    (fsMissingNpi.npi_small_csv = none ∨ fsMissingNpi.state_abbreviations_csv = none) ∧
    (load_files_into_db fsMissingNpi dbLoad).1.lookupTable "state_abbreviations" = none ∧
    (load_files_into_db fsMissingNpi dbLoad).1.hasDependents "npi_small" = false ∧
    (load_files_into_db fsMissingNpi dbLoad).1.hasDependents "state_abbreviations" = false ∧
    (fsMissingNpi.npi_small_csv = none →
      (load_files_into_db fsMissingNpi dbLoad).1.lookupTable "npi_small" = none) :=
  load_files_into_db_drops_before_read fsMissingNpi dbLoad rfl

/-- Witness for C10: on a concrete database whose production table has a
dependent view, the Publisher fails and changes nothing. -/
theorem publish_drop_without_cascade_fails_witness :
    (publish_to_prod dbDeps).1 = dbDeps ∧
    exceptOk (publish_to_prod dbDeps).2 = false ∧
    (publish_to_prod dbDeps).1.lookupTable "prod_count_providers_by_state"
      = dbDeps.lookupTable "prod_count_providers_by_state" :=
  publish_drop_without_cascade_fails dbDeps (by decide) (by decide)

end GeTutorials
